import Mathlib

/-!
Shallow embedding of the Aegis payment-incident agent host.

Source of truth:
  * src/python-agent-host/app.py   (AgentService.HandleIncident and its helpers)
  * src/tools/payment-tool/main.py (the /retry_payment mock endpoint)

Python values that arise from json.loads are modelled by the inductive `Json`.
External collaborators (the Ollama model, the payment-tool HTTP service, the
Elasticsearch knowledge base) are modelled as function parameters (oracles), so
all theorems quantify over every possible collaborator behaviour.
-/

namespace Aegis

/-- A JSON-compatible Python value (the result of json.loads). Numbers are
modelled as integers; no claim exercises float payloads. -/
inductive Json where
  | null : Json
  | bool : Bool → Json
  | num : Int → Json
  | str : String → Json
  | arr : List Json → Json
  | obj : List (String × Json) → Json

/-- Python truthiness of a JSON-decoded value (used by `if tool_name and ...`
and by the backfill guards `and user_id_from_event`). -/
def Json.truthy : Json → Bool
  | .null => false
  | .bool b => b
  | .num n => n != 0
  | .str s => s != ""
  | .arr xs => !xs.isEmpty
  | .obj fs => !fs.isEmpty

/-- Python `dict.get(key)`: `none` models Python `None` for a missing key.
Objects produced by json.loads have unique keys, so first-match lookup agrees
with dict lookup. -/
def lookupField : List (String × Json) → String → Option Json
  | [], _ => none
  | (k, v) :: rest, key => if k = key then some v else lookupField rest key

/-- Python `key in dict`. -/
def hasKey (fs : List (String × Json)) (k : String) : Bool :=
  (lookupField fs k).isSome

/-- Python `dict.get(key, default)`. -/
def getOr (fs : List (String × Json)) (k : String) (d : Json) : Json :=
  (lookupField fs k).getD d

/-- Python equality test of a JSON-decoded value against a string literal
(`tool_name == "retry_payment"`): only equal strings compare equal. -/
def jsonIsStr : Json → String → Bool
  | .str a, t => a == t
  | _, _ => false

/-- The Python type name of a JSON-decoded value, as it appears in an
AttributeError message (`'list' object has no attribute 'get'`). -/
def pyTypeName : Json → String
  | .null => "NoneType"
  | .bool _ => "bool"
  | .num _ => "int"
  | .str _ => "str"
  | .arr _ => "list"
  | .obj _ => "dict"

mutual
/-- json.dumps with the default separators. String escaping corner cases are
elided; no control flow reads the dumped text back. -/
def Json.dumps : Json → String
  | .null => "null"
  | .bool b => cond b "true" "false"
  | .num n => toString n
  | .str s => "\"" ++ s ++ "\""
  | .arr xs => "[" ++ dumpsArr xs ++ "]"
  | .obj fs => "\x7b" ++ dumpsObj fs ++ "\x7d"

def dumpsArr : List Json → String
  | [] => ""
  | [x] => Json.dumps x
  | x :: y :: xs => Json.dumps x ++ ", " ++ dumpsArr (y :: xs)

def dumpsObj : List (String × Json) → String
  | [] => ""
  | [(k, v)] => "\"" ++ k ++ "\": " ++ Json.dumps v
  | (k, v) :: kv :: xs => "\"" ++ k ++ "\": " ++ Json.dumps v ++ ", " ++ dumpsObj (kv :: xs)
end

/-- Rendering of a JSON-decoded value inside a Python f-string (str()).
For containers this approximates Python repr by the JSON text; no theorem
depends on the container cases. -/
def pyStr : Json → String
  | .null => "None"
  | .bool b => cond b "True" "False"
  | .num n => toString n
  | .str s => s
  | j => Json.dumps j

/-- f-string rendering of an optional value (missing key gives Python None). -/
def pyOpt : Option Json → String
  | none => "None"
  | some j => pyStr j

/-- Classification of one model output by the response-interpretation block of
HandleIncident (app.py lines 306-365). `crash` models the AttributeError that
`llm_decision.get` raises when the parsed JSON is not a dict; it is caught only
by the outer `except Exception` handler. -/
inductive Interp where
  | toolCall (name : Json) (args : List (String × Json))
  | finalAnswer (text : String)
  | formatError
  | crash (msg : String)

/-- The response-interpretation block of HandleIncident (app.py 310-365):
`parsed` is the result of json.loads on the (stripped) model output `raw`
(`none` = JSONDecodeError); `expectJson` is the tri-state `expect_json` flag
(`some true` = REQUIRE_JSON, `none` = ALLOW_EITHER, `some false` = REQUIRE_TEXT). -/
def interpretResponse (parsed : Option Json) (raw : String) (expectJson : Option Bool) : Interp :=
  match parsed with
  | none =>
      if expectJson = some true then Interp.formatError
      else Interp.finalAnswer raw
  | some (Json.obj fs) =>
      match lookupField fs "tool_name", lookupField fs "tool_args" with
      | some n, some (Json.obj args) =>
          if n.truthy then Interp.toolCall n args else Interp.finalAnswer raw
      | _, _ => Interp.finalAnswer raw
  | some j => Interp.crash ("\x27" ++ pyTypeName j ++ "\x27 object has no attribute \x27get\x27")

/-- One behaviour of the Ollama collaborator on one turn: either a reply
(modelled by the json.loads result of the stripped text together with the text
itself) or a raised exception (`except Exception as llm_error`). -/
inductive ModelStep where
  | reply (parsed : Option Json) (raw : String)
  | err (msg : String)

/-- One conversation message: (role, content), role ∈ user/assistant/tool. -/
abbrev Msg := String × String

/-- The collaborators and per-incident constants the loop body reads:
`esUp` models `self.es_client` being connected, `llm` models
`self.ollama_client.chat` (indexed by the turn on which it is called),
`payOracle` models `call_payment_tool`'s HTTP round trip, and `kbOracle`
models `call_knowledge_base`'s Elasticsearch round trip. -/
structure LoopEnv where
  esUp : Bool
  eventType : String
  payloadText : String
  userId : Option Json
  orderId : Option Json
  llm : Nat → ModelStep
  payOracle : String → List (String × Json) → Json
  kbOracle : Json → Json

/-- The revised expectation logic (app.py 220-228): default REQUIRE_JSON
(`some true`); after retry_payment ALLOW_EITHER (`none`, Python None); after
escalate_to_human REQUIRE_TEXT (`some false`). -/
def expectJsonFor (lastTool : Option Json) : Option Bool :=
  match lastTool with
  | some t =>
      if jsonIsStr t "retry_payment" then none
      else if jsonIsStr t "escalate_to_human" then some false
      else some true
  | none => some true

/-- `last_tool_name_planned_in_prev_turn == "..."` where the left side may be
Python None. -/
def matchesTool (lastTool : Option Json) (s : String) : Bool :=
  match lastTool with
  | some t => jsonIsStr t s
  | none => false

/-- `conversation_history[-1]['content'] if ... else '{"error": ...}'`
(app.py 247 and its copies). -/
def lastToolContent (hist : List Msg) : String :=
  match hist.getLast? with
  | some m => if m.1 = "tool" then m.2 else "\x7b\"error\": \"Could not get previous tool result\"\x7d"
  | none => "\x7b\"error\": \"Could not get previous tool result\"\x7d"

/-- The turn-1 prompt (app.py 234-244). The long f-string literal is
abbreviated to the parts that interpolate incident state; no control flow ever
reads prompt content back, so only its construction sites matter. -/
def promptTurn1 (env : LoopEnv) : String :=
  "You are Aegis, resolving a " ++ env.eventType ++ " incident for order_id " ++
  pyOpt env.orderId ++ ", user_id " ++ pyOpt env.userId ++ ". Event Details: " ++
  env.payloadText ++
  ". Your very first step MUST be to call get_payment_methods. Respond ONLY with JSON."

/-- The follow-up prompts (app.py 246-280), abbreviated like `promptTurn1`:
each interpolates the previous tool result fetched by `lastToolContent`. -/
def promptAfter (toolName : String) (lastResult : String) : String :=
  "Result of " ++ toolName ++ ": " ++ lastResult ++
  ". Analyze the result and take the next step for this turn."

/-- The prompt-selection chain of the loop body (app.py 233-284): `none`
models the final `else` branch (unmapped expectation-policy state), which
breaks out of the loop. -/
def selectPrompt (env : LoopEnv) (turn : Nat) (lastTool : Option Json) (hist : List Msg) :
    Option String :=
  if turn = 1 then some (promptTurn1 env)
  else if matchesTool lastTool "get_payment_methods" then
    some (promptAfter "get_payment_methods" (lastToolContent hist))
  else if matchesTool lastTool "retry_payment" then
    some (promptAfter "retry_payment" (lastToolContent hist))
  else if matchesTool lastTool "query_knowledge_base" then
    some (promptAfter "query_knowledge_base" (lastToolContent hist))
  else if matchesTool lastTool "escalate_to_human" then
    some (promptAfter "escalate_to_human" (lastToolContent hist))
  else none

/-- `if 'key' not in tool_args and value_from_event: tool_args['key'] = value`
(app.py 327, 330, 339): backfill happens only when the key is absent AND the
event-derived value is truthy. -/
def backfillArg (args : List (String × Json)) (key : String) (v : Option Json) :
    List (String × Json) :=
  if hasKey args key then args
  else
    match v with
    | some jv => if jv.truthy then args ++ [(key, jv)] else args
    | none => args

/-- Outcome of the tool-execution block for one tool call: the (possibly
backfilled) argument dict, the ToolResult, and whether an external collaborator
(payment HTTP service or Elasticsearch) was contacted. -/
structure DispatchOut where
  args : List (String × Json)
  result : Json
  contacted : Bool

/-- The tool-execution chain of the loop body (app.py 322-344).
escalate_to_human is handled locally by `call_escalate_to_human` (app.py
180-183); an unrecognized name falls to the final `else` without any call. -/
def dispatchTool (env : LoopEnv) (name : Json) (args : List (String × Json)) : DispatchOut :=
  if jsonIsStr name "get_payment_methods" then
    let args1 := backfillArg args "user_id" env.userId
    ⟨args1, env.payOracle "get_payment_methods" args1, true⟩
  else if jsonIsStr name "retry_payment" then
    let args1 := backfillArg args "order_id" env.orderId
    ⟨args1, env.payOracle "retry_payment" args1, true⟩
  else if jsonIsStr name "query_knowledge_base" then
    if env.esUp then ⟨args, env.kbOracle (getOr args "query" (Json.str "")), true⟩
    else ⟨args, Json.obj [("error", Json.str "Knowledge base (Elasticsearch) is unavailable.")], false⟩
  else if jsonIsStr name "escalate_to_human" then
    let args1 := backfillArg args "order_id" env.orderId
    ⟨args1,
     Json.obj [("ticket_id", Json.str ("SIM" ++ pyOpt (lookupField args1 "order_id"))),
               ("status", Json.str "Escalation ticket created successfully.")],
     false⟩
  else
    ⟨args, Json.obj [("error", Json.str ("Tool \x27" ++ pyStr name ++ "\x27 execution not implemented."))], false⟩

/-- What one iteration of the while loop does: either break with a final
status/summary (`halt`, recording whether the model was called this turn), or
execute a tool and continue (`step`). -/
inductive StepOut where
  | halt (status summary : String) (hist : List Msg) (modelCalled : Bool)
  | step (toolName : Json) (hist : List Msg) (contacted : Bool)

/-- One iteration of the while loop body (app.py 215-370), for the turn
`turn` with previous planned tool `lastTool` and history `hist`.

Every `break` path is `halt "COMPLETED" ...` except the AttributeError path,
because after the loop the code returns COMPLETED whenever the loop exited via
`break` (app.py 385-387), while an uncaught exception reaches the outer
handler and returns ERROR (app.py 389-392). -/
def loopStep (env : LoopEnv) (turn : Nat) (lastTool : Option Json) (hist : List Msg) : StepOut :=
  match selectPrompt env turn lastTool hist with
  | none => StepOut.halt "COMPLETED" "Agent reached an unexpected state." hist false
  | some p =>
    let hist1 := hist ++ [("user", p)]
    match env.llm turn with
    | ModelStep.err m =>
        StepOut.halt "COMPLETED" ("Error communicating with LLM: " ++ m) hist1 true
    | ModelStep.reply parsed raw =>
      let hist2 := hist1 ++ [("assistant", raw)]
      match interpretResponse parsed raw (expectJsonFor lastTool) with
      | Interp.formatError =>
          StepOut.halt "COMPLETED" "LLM failed to provide expected JSON tool call." hist2 true
      | Interp.finalAnswer s => StepOut.halt "COMPLETED" s hist2 true
      | Interp.crash m =>
          StepOut.halt "ERROR" ("Unhandled error in HandleIncident: " ++ m) hist2 true
      | Interp.toolCall name args =>
        let d := dispatchTool env name args
        StepOut.step name (hist2 ++ [("tool", Json.dumps d.result)]) d.contacted

/-- The externally visible outcome plus a trace of what happened: the gRPC
(status, agent_response) pair, the conversation history, and counters for loop
iterations entered, model calls made, and external tool collaborators
contacted. -/
structure RunResult where
  status : String
  summary : String
  hist : List Msg
  turnsEntered : Nat
  modelCalls : Nat
  toolContacts : Nat

/-- The while loop (app.py 215-387). `fuel` is the number of remaining
admissible turns (`max_turns - current_turn + 1`); exhausting it models
`current_turn > max_turns`, which returns ERROR "Agent reached max turns
without full resolution." (app.py 381-384). -/
def runLoop (env : LoopEnv) :
    Nat → Nat → Option Json → List Msg → Nat → Nat → Nat → RunResult
  | 0, _, _, hist, te, mc, tc =>
      ⟨"ERROR", "Agent reached max turns without full resolution.", hist, te, mc, tc⟩
  | Nat.succ f, turn, lastTool, hist, te, mc, tc =>
      match loopStep env turn lastTool hist with
      | StepOut.halt st sm h mcall => ⟨st, sm, h, te + 1, mc + cond mcall 1 0, tc⟩
      | StepOut.step name h contacted =>
          runLoop env f (turn + 1) (some name) h (te + 1) (mc + 1) (tc + cond contacted 1 0)

/-- An incoming incident: the gRPC request fields plus `parsedPayload`, which
models the result of `json.loads(request.full_event_json)` (`none` =
json.JSONDecodeError). -/
structure Incident where
  event_type : String
  full_event_json : String
  parsedPayload : Option Json

/-- The best-effort ID extraction (app.py 201-208): a parse failure is caught
and both IDs degrade to None, but `.get` on a non-dict JSON value raises an
AttributeError that only the outer handler catches. -/
def extractIds (p : Option Json) : Except String (Option Json × Option Json) :=
  match p with
  | none => Except.ok (none, none)
  | some (Json.obj fs) => Except.ok (lookupField fs "user_id", lookupField fs "order_id")
  | some j => Except.error ("\x27" ++ pyTypeName j ++ "\x27 object has no attribute \x27get\x27")

/-- AgentService.HandleIncident (app.py 186-392). `ollamaUp` models
`self.ollama_client` being initialized, `esUp` models `self.es_client`.
The loop is entered with current_turn = 1, max_turns = 5 (fuel 5). -/
def HandleIncident (ollamaUp esUp : Bool) (inc : Incident) (llm : Nat → ModelStep)
    (payOracle : String → List (String × Json) → Json) (kbOracle : Json → Json) : RunResult :=
  if ollamaUp = false then ⟨"ERROR", "Ollama client not initialized.", [], 0, 0, 0⟩
  else
    match extractIds inc.parsedPayload with
    | Except.error e => ⟨"ERROR", "Unhandled error in HandleIncident: " ++ e, [], 0, 0, 0⟩
    | Except.ok ids =>
        runLoop ⟨esUp, inc.event_type, inc.full_event_json, ids.1, ids.2, llm, payOracle, kbOracle⟩
          5 1 none [] 0 0 0

/-- The four tool names handled by the dispatch chain and recognized by the
follow-up prompt branches. -/
def knownToolNames : List String :=
  ["get_payment_methods", "retry_payment", "query_knowledge_base", "escalate_to_human"]

/-- The /retry_payment request body (payment-tool main.py 47-49); pydantic
coerces order_id to int and payment_method_id to str. -/
structure RetryPaymentRequest where
  order_id : Int
  payment_method_id : String

/-- The /retry_payment response body (payment-tool main.py 52-55). -/
structure RetryPaymentResponse where
  status : String
  transaction_id : Option String
  reason : Option String
deriving DecidableEq

/-- The mock /retry_payment endpoint (payment-tool main.py 94-109). Its body
never touches get_db_connection, so the embedding is a pure function of the
request. -/
def retry_payment (req : RetryPaymentRequest) : RetryPaymentResponse :=
  if req.payment_method_id = "card_B_paypal" then
    ⟨"success", some ("txn_" ++ toString req.order_id ++ "_paypal"), none⟩
  else
    ⟨"failed", none, some "Insufficient funds (mocked)"⟩

/-- A payment-tool collaborator that always answers null (any fixed behaviour
works; theorems that need generality quantify over the oracle). -/
def payOracle0 : String → List (String × Json) → Json := fun _ _ => Json.null

/-- A knowledge-base collaborator that always answers null. -/
def kbOracle0 : Json → Json := fun _ => Json.null

/-- A concrete environment for closed evaluations of the dispatcher. -/
def env0 : LoopEnv :=
  ⟨true, "payment_failure", "\x7b\"user_id\": 42, \"order_id\": 7\x7d",
   some (Json.num 42), some (Json.num 7), fun _ => ModelStep.err "unused",
   payOracle0, kbOracle0⟩

/-- A concrete incident whose raw payload is the JSON object
with user_id 42 and order_id 7. -/
def incident0 : Incident :=
  ⟨"payment_failure", "\x7b\"user_id\": 42, \"order_id\": 7\x7d",
   some (Json.obj [("user_id", Json.num 42), ("order_id", Json.num 7)])⟩

/-- A concrete incident whose raw payload is the JSON text "[1, 2]": valid
JSON, but a list, so `event_data.get` raises AttributeError. -/
def incidentArr : Incident :=
  ⟨"payment_failure", "[1, 2]", some (Json.arr [Json.num 1, Json.num 2])⟩

/-- A model that always answers plain prose (json.loads fails). -/
def proseScript : Nat → ModelStep :=
  fun _ => ModelStep.reply none "I will check the payment methods for this user first."

/-- A model that always answers a well-formed tool-call envelope naming a tool
the expectation policy does not recognize. -/
def fooScript : Nat → ModelStep :=
  fun _ => ModelStep.reply
    (some (Json.obj [("tool_name", Json.str "foo_tool"), ("tool_args", Json.obj [])]))
    "\x7b\"tool_name\": \"foo_tool\", \"tool_args\": \x7b\x7d\x7d"

/-- A model that calls get_payment_methods on every turn, so every turn ends in
a tool execution and no terminal classification is ever reached. -/
def gpmScript : Nat → ModelStep :=
  fun _ => ModelStep.reply
    (some (Json.obj [("tool_name", Json.str "get_payment_methods"),
                     ("tool_args", Json.obj [("user_id", Json.num 42)])]))
    "\x7b\"tool_name\": \"get_payment_methods\", \"tool_args\": \x7b\"user_id\": 42\x7d\x7d"

/-- Concrete model-supplied tool args that already carry both identifiers. -/
def argsBoth : List (String × Json) :=
  [("user_id", Json.num 42), ("order_id", Json.num 7),
   ("payment_method_id", Json.str "card_B_paypal")]

/-- Concrete tool args of a retry_payment call volunteered by the model. -/
def argsRetry : List (String × Json) :=
  [("order_id", Json.num 7), ("payment_method_id", Json.str "card_B_paypal")]

/-- The parsed JSON object of that volunteered retry_payment call. -/
def fsRetry : List (String × Json) :=
  [("tool_name", Json.str "retry_payment"), ("tool_args", Json.obj argsRetry)]

/-- An environment whose model volunteers the retry_payment tool call on every
turn, including turns whose expectation is REQUIRE_TEXT. -/
def envRetry : LoopEnv :=
  ⟨true, "payment_failure", "\x7b\"user_id\": 42, \"order_id\": 7\x7d",
   some (Json.num 42), some (Json.num 7),
   fun _ => ModelStep.reply (some (Json.obj fsRetry)) "volunteered tool call",
   payOracle0, kbOracle0⟩

/-- The model output on a given turn is a recognized, well-formed tool call:
json.loads succeeds, the object has a truthy string tool_name naming one of
the four known tools, and a dict tool_args. -/
def goodToolReply (step : ModelStep) : Prop :=
  ∃ raw fs s args,
    step = ModelStep.reply (some (Json.obj fs)) raw ∧
    lookupField fs "tool_name" = some (Json.str s) ∧
    lookupField fs "tool_args" = some (Json.obj args) ∧
    s ∈ knownToolNames

/-- The loop enters at most `fuel` further iterations. -/
theorem runLoop_turns_le (env : LoopEnv) :
    ∀ (fuel turn : Nat) (lastTool : Option Json) (hist : List Msg) (te mc tc : Nat),
      (runLoop env fuel turn lastTool hist te mc tc).turnsEntered ≤ te + fuel := by
  intro fuel
  induction fuel with
  | zero =>
      intro turn lastTool hist te mc tc
      simp [runLoop]
  | succ f ih =>
      intro turn lastTool hist te mc tc
      cases h : loopStep env turn lastTool hist with
      | halt st sm hh mcall =>
          simp [runLoop, h]
      | step name hh c =>
          simp only [runLoop, h]
          have := ih (turn + 1) (some name) hh (te + 1) (mc + 1) (tc + cond c 1 0)
          omega

/-- The iteration counter never decreases. -/
theorem runLoop_turns_ge (env : LoopEnv) :
    ∀ (fuel turn : Nat) (lastTool : Option Json) (hist : List Msg) (te mc tc : Nat),
      te ≤ (runLoop env fuel turn lastTool hist te mc tc).turnsEntered := by
  intro fuel
  induction fuel with
  | zero =>
      intro turn lastTool hist te mc tc
      simp [runLoop]
  | succ f ih =>
      intro turn lastTool hist te mc tc
      cases h : loopStep env turn lastTool hist with
      | halt st sm hh mcall => simp [runLoop, h]
      | step name hh c =>
          simp only [runLoop, h]
          have := ih (turn + 1) (some name) hh (te + 1) (mc + 1) (tc + cond c 1 0)
          omega

/-- With fuel remaining, the loop body runs at least once more. -/
theorem runLoop_turns_succ_ge (env : LoopEnv) (f turn : Nat) (lastTool : Option Json)
    (hist : List Msg) (te mc tc : Nat) :
    te + 1 ≤ (runLoop env (f + 1) turn lastTool hist te mc tc).turnsEntered := by
  cases h : loopStep env turn lastTool hist with
  | halt st sm hh mcall => simp [runLoop, h]
  | step name hh c =>
      simp only [runLoop, h]
      exact runLoop_turns_ge env f (turn + 1) (some name) hh (te + 1) (mc + 1) (tc + cond c 1 0)

/-- Every recognized tool name is a truthy (non-empty) string. -/
theorem mem_known_ne_empty {s : String} (h : s ∈ knownToolNames) : s ≠ "" := by
  simp [knownToolNames] at h
  rcases h with rfl | rfl | rfl | rfl <;> decide

/-- On turn 1, or when the previous planned tool is recognized, the
prompt-selection chain yields a prompt (the unmapped branch is not taken). -/
theorem selectPrompt_isSome (env : LoopEnv) (turn : Nat) (lastTool : Option Json)
    (hist : List Msg)
    (h : turn = 1 ∨ ∃ s, s ∈ knownToolNames ∧ lastTool = some (Json.str s)) :
    ∃ p, selectPrompt env turn lastTool hist = some p := by
  by_cases ht : turn = 1
  · exact ⟨promptTurn1 env, by simp [selectPrompt, ht]⟩
  · rcases h with h1 | ⟨s, hs, rfl⟩
    · exact absurd h1 ht
    · simp [knownToolNames] at hs
      rcases hs with rfl | rfl | rfl | rfl <;>
        simp [selectPrompt, ht, matchesTool, jsonIsStr]

/-- On a recognized state, a well-formed recognized tool call makes the loop
body execute the tool and continue. -/
theorem loopStep_good (env : LoopEnv) (turn : Nat) (lastTool : Option Json) (hist : List Msg)
    (hstate : turn = 1 ∨ ∃ s, s ∈ knownToolNames ∧ lastTool = some (Json.str s))
    (hgood : goodToolReply (env.llm turn)) :
    ∃ s h c, s ∈ knownToolNames ∧ loopStep env turn lastTool hist = StepOut.step (Json.str s) h c := by
  obtain ⟨p, hp⟩ := selectPrompt_isSome env turn lastTool hist hstate
  obtain ⟨raw, fs, s, args, hstep, hname, hargs, hmem⟩ := hgood
  have hne : s ≠ "" := mem_known_ne_empty hmem
  have hs : loopStep env turn lastTool hist =
      StepOut.step (Json.str s)
        (hist ++ [("user", p)] ++ [("assistant", raw)] ++
          [("tool", Json.dumps (dispatchTool env (Json.str s) args).result)])
        (dispatchTool env (Json.str s) args).contacted := by
    simp only [loopStep, hp, hstep, interpretResponse, hname, hargs]
    simp [Json.truthy, hne]
  exact ⟨s, _, _, hmem, hs⟩

/-- If the model produces a recognized, well-formed tool call on every
remaining turn, the loop consumes all its fuel and ends in the max-turns
ERROR return. -/
theorem runLoop_good_all (env : LoopEnv) :
    ∀ (fuel turn : Nat) (lastTool : Option Json) (hist : List Msg) (te mc tc : Nat),
      (turn = 1 ∨ ∃ s, s ∈ knownToolNames ∧ lastTool = some (Json.str s)) →
      (∀ i, turn ≤ i → i < turn + fuel → goodToolReply (env.llm i)) →
      (runLoop env fuel turn lastTool hist te mc tc).status = "ERROR" ∧
      (runLoop env fuel turn lastTool hist te mc tc).summary =
        "Agent reached max turns without full resolution." ∧
      (runLoop env fuel turn lastTool hist te mc tc).turnsEntered = te + fuel := by
  intro fuel
  induction fuel with
  | zero =>
      intro turn lastTool hist te mc tc _ _
      exact ⟨rfl, rfl, rfl⟩
  | succ f ih =>
      intro turn lastTool hist te mc tc hstate hgood
      obtain ⟨s, h, c, hmem, hstep⟩ :=
        loopStep_good env turn lastTool hist hstate (hgood turn le_rfl (by omega))
      simp only [runLoop, hstep]
      have hrec := ih (turn + 1) (some (Json.str s)) h (te + 1) (mc + 1) (tc + cond c 1 0)
        (Or.inr ⟨s, hmem, rfl⟩) (fun i h1 h2 => hgood i (by omega) (by omega))
      refine ⟨hrec.1, hrec.2.1, ?_⟩
      rw [hrec.2.2]
      omega

/-- Backfill leaves an argument dict untouched when the key is already
present. -/
theorem backfillArg_present (args : List (String × Json)) (key : String) (v : Option Json)
    (h : hasKey args key = true) : backfillArg args key v = args := by
  simp [backfillArg, h]

/-- A key appended at the end of an argument dict is afterwards present. -/
theorem hasKey_append_self (args : List (String × Json)) (key : String) (jv : Json) :
    hasKey (args ++ [(key, jv)]) key = true := by
  induction args with
  | nil => simp [hasKey, lookupField]
  | cons kv rest ih =>
      obtain ⟨k, v⟩ := kv
      by_cases h : k = key
      · simp [hasKey, lookupField, h]
      · simpa [hasKey, lookupField, h] using ih

/-- Backfilling the same key twice is the same as backfilling it once. -/
theorem backfillArg_idem (args : List (String × Json)) (key : String) (v : Option Json) :
    backfillArg (backfillArg args key v) key v = backfillArg args key v := by
  by_cases h : hasKey args key = true
  · rw [backfillArg_present args key v h, backfillArg_present args key v h]
  · cases v with
    | none => simp [backfillArg, h]
    | some jv =>
        by_cases ht : jv.truthy = true
        · have h1 : backfillArg args key (some jv) = args ++ [(key, jv)] := by
            simp [backfillArg, h, ht]
          rw [h1]
          exact backfillArg_present _ key _ (hasKey_append_self args key jv)
        · have h1 : backfillArg args key (some jv) = args := by
            simp [backfillArg, h, ht]
          rw [h1, h1]

/-- C1: when the model output fails to parse as JSON on a REQUIRE_JSON turn,
the loop aborts on that turn with the format-mismatch summary — but the code
returns status COMPLETED, not the ERROR the claim states, because the
post-loop return (app.py 385-387) answers COMPLETED for every loop exit via
break. Evaluated at the failing input: incident with user_id 42 / order_id 7
and a model that answers plain prose on turn 1. -/
theorem C1_format_error_returns_completed :
    (HandleIncident true true incident0 proseScript payOracle0 kbOracle0).status = "COMPLETED" ∧
    (HandleIncident true true incident0 proseScript payOracle0 kbOracle0).summary =
      "LLM failed to provide expected JSON tool call." ∧
    (HandleIncident true true incident0 proseScript payOracle0 kbOracle0).turnsEntered = 1 :=
  ⟨rfl, rfl, rfl⟩

/-- C2: when turn 2 starts with a previous planned tool the expectation policy
does not recognize, the loop terminates on that turn with the
unexpected-state summary — but the code returns status COMPLETED, not the
ERROR the claim states, and the summary is the full sentence "Agent reached an
unexpected state.". Evaluated at the failing input: a model that plans the
unknown tool "foo_tool" on turn 1. -/
theorem C2_unmapped_state_returns_completed :
    (HandleIncident true true incident0 fooScript payOracle0 kbOracle0).status = "COMPLETED" ∧
    (HandleIncident true true incident0 fooScript payOracle0 kbOracle0).summary =
      "Agent reached an unexpected state." ∧
    (HandleIncident true true incident0 fooScript payOracle0 kbOracle0).turnsEntered = 2 :=
  ⟨rfl, rfl, rfl⟩

/-- C3 counterexample: a run whose five turns all end in a tool execution does
return status ERROR, but its summary is "Agent reached max turns without full
resolution.", not the claimed literal "max turns exceeded". -/
theorem C3_counterexample :
    (HandleIncident true true incident0 gpmScript payOracle0 kbOracle0).status = "ERROR" ∧
    (HandleIncident true true incident0 gpmScript payOracle0 kbOracle0).summary =
      "Agent reached max turns without full resolution." ∧
    (HandleIncident true true incident0 gpmScript payOracle0 kbOracle0).summary ≠
      "max turns exceeded" ∧
    (HandleIncident true true incident0 gpmScript payOracle0 kbOracle0).turnsEntered = 5 := by
  refine ⟨rfl, rfl, ?_, rfl⟩
  intro h
  rw [show (HandleIncident true true incident0 gpmScript payOracle0 kbOracle0).summary =
      "Agent reached max turns without full resolution." from rfl] at h
  exact absurd h (by decide)

/-- C3 (amended): for every incident whose payload extraction succeeds and
every model that answers a recognized, well-formed tool call on each of the
five turns, the loop runs all 5 turns and ends with status ERROR and summary
"Agent reached max turns without full resolution.". -/
theorem C3_max_turns_behaviour (esUp : Bool) (inc : Incident) (llm : Nat → ModelStep)
    (pay : String → List (String × Json) → Json) (kb : Json → Json)
    (ids : Option Json × Option Json)
    (hids : extractIds inc.parsedPayload = Except.ok ids)
    (hgood : ∀ i, 1 ≤ i → i < 6 → goodToolReply (llm i)) :
    (HandleIncident true esUp inc llm pay kb).status = "ERROR" ∧
    (HandleIncident true esUp inc llm pay kb).summary =
      "Agent reached max turns without full resolution." ∧
    (HandleIncident true esUp inc llm pay kb).turnsEntered = 5 := by
  unfold HandleIncident
  simp only [hids]
  have hmain := runLoop_good_all
    ⟨esUp, inc.event_type, inc.full_event_json, ids.1, ids.2, llm, pay, kb⟩
    5 1 none [] 0 0 0 (Or.inl rfl) (fun i h1 h2 => hgood i h1 (by omega))
  simpa using hmain

/-- C3 witness: the amended theorem applied to a concrete incident and a model
that calls get_payment_methods on all five turns. -/
theorem C3_witness :
    (HandleIncident true true incident0 gpmScript payOracle0 kbOracle0).status = "ERROR" ∧
    (HandleIncident true true incident0 gpmScript payOracle0 kbOracle0).summary =
      "Agent reached max turns without full resolution." ∧
    (HandleIncident true true incident0 gpmScript payOracle0 kbOracle0).turnsEntered = 5 :=
  C3_max_turns_behaviour true incident0 gpmScript payOracle0 kbOracle0
    (some (Json.num 42), some (Json.num 7)) rfl
    (fun _ _ _ =>
      ⟨"\x7b\"tool_name\": \"get_payment_methods\", \"tool_args\": \x7b\"user_id\": 42\x7d\x7d",
       [("tool_name", Json.str "get_payment_methods"),
        ("tool_args", Json.obj [("user_id", Json.num 42)])],
       "get_payment_methods", [("user_id", Json.num 42)], rfl, rfl, rfl, by decide⟩)

/-- C4 counterexample: an output that parses as a JSON object with a string
tool_name field (the empty string) and a dict tool_args field is classified as
FinalAnswer, not ToolCall, because the code tests Python truthiness of
tool_name and the empty string is falsy. -/
theorem C4_counterexample :
    interpretResponse
        (some (Json.obj [("tool_name", Json.str ""), ("tool_args", Json.obj [])]))
        "plain text answer" (some false) = Interp.finalAnswer "plain text answer" ∧
    Interp.finalAnswer "plain text answer" ≠ Interp.toolCall (Json.str "") [] :=
  ⟨rfl, fun h => Interp.noConfusion h⟩

/-- C4 (amended): for every output that parses as a JSON object with a
NON-EMPTY string tool_name field and a dict tool_args field, the interpreter
classifies it as a ToolCall naming that tool, whatever the turn's format
expectation (REQUIRE_JSON, ALLOW_EITHER or REQUIRE_TEXT), taking priority
over FinalAnswer; and on any turn whose prompt state is mapped, the loop body
then dispatches exactly that tool and continues. -/
theorem C4_toolcall_classification (fs : List (String × Json)) (raw : String)
    (e : Option Bool) (s : String) (args : List (String × Json))
    (hn : lookupField fs "tool_name" = some (Json.str s)) (hne : s ≠ "")
    (ha : lookupField fs "tool_args" = some (Json.obj args)) :
    interpretResponse (some (Json.obj fs)) raw e = Interp.toolCall (Json.str s) args ∧
    ∀ (env : LoopEnv) (turn : Nat) (lastTool : Option Json) (hist : List Msg) (p : String),
      selectPrompt env turn lastTool hist = some p →
      env.llm turn = ModelStep.reply (some (Json.obj fs)) raw →
      loopStep env turn lastTool hist =
        StepOut.step (Json.str s)
          (hist ++ [("user", p)] ++ [("assistant", raw)] ++
            [("tool", Json.dumps (dispatchTool env (Json.str s) args).result)])
          (dispatchTool env (Json.str s) args).contacted := by
  have hcls : ∀ e' : Option Bool,
      interpretResponse (some (Json.obj fs)) raw e' = Interp.toolCall (Json.str s) args := by
    intro e'
    simp only [interpretResponse, hn, ha]
    simp [Json.truthy, hne]
  refine ⟨hcls e, ?_⟩
  intro env turn lastTool hist p hp hllm
  simp only [loopStep, hp, hllm, hcls (expectJsonFor lastTool)]

/-- C4 witness: the amended theorem applied on a REQUIRE_TEXT turn (turn 5
after escalate_to_human was planned): the volunteered retry_payment call is
classified as a ToolCall and dispatched. -/
theorem C4_witness :
    interpretResponse (some (Json.obj fsRetry)) "volunteered tool call" (some false) =
      Interp.toolCall (Json.str "retry_payment") argsRetry ∧
    loopStep envRetry 5 (some (Json.str "escalate_to_human")) [] =
      StepOut.step (Json.str "retry_payment")
        ([] ++ [("user", promptAfter "escalate_to_human" (lastToolContent []))] ++
          [("assistant", "volunteered tool call")] ++
          [("tool", Json.dumps (dispatchTool envRetry (Json.str "retry_payment") argsRetry).result)])
        (dispatchTool envRetry (Json.str "retry_payment") argsRetry).contacted :=
  ⟨(C4_toolcall_classification fsRetry "volunteered tool call" (some false)
      "retry_payment" argsRetry rfl (by decide) rfl).1,
   (C4_toolcall_classification fsRetry "volunteered tool call" (some false)
      "retry_payment" argsRetry rfl (by decide) rfl).2
     envRetry 5 (some (Json.str "escalate_to_human")) []
     (promptAfter "escalate_to_human" (lastToolContent [])) rfl rfl⟩

/-- C5: when the Ollama client was never initialized, HandleIncident returns
ERROR with the model-unavailable summary immediately: zero turns entered, no
model call, no tool contact, empty conversation history. -/
theorem C5_model_unavailable (esUp : Bool) (inc : Incident) (llm : Nat → ModelStep)
    (pay : String → List (String × Json) → Json) (kb : Json → Json) :
    HandleIncident false esUp inc llm pay kb =
      ⟨"ERROR", "Ollama client not initialized.", [], 0, 0, 0⟩ := rfl

/-- C6: for every incident and every behaviour of the model and tool
collaborators, the loop enters at most max_turns = 5 iterations. -/
theorem C6_loop_bounded (ollamaUp esUp : Bool) (inc : Incident) (llm : Nat → ModelStep)
    (pay : String → List (String × Json) → Json) (kb : Json → Json) :
    (HandleIncident ollamaUp esUp inc llm pay kb).turnsEntered ≤ 5 := by
  unfold HandleIncident
  cases ollamaUp with
  | false => simp
  | true =>
      simp only [Bool.true_eq_false, if_false]
      cases h : extractIds inc.parsedPayload with
      | error e => simp
      | ok ids =>
          simpa using runLoop_turns_le
            ⟨esUp, inc.event_type, inc.full_event_json, ids.1, ids.2, llm, pay, kb⟩
            5 1 none [] 0 0 0

/-- C7 counterexample: dispatching the unrecognized tool name "foo" does not
produce the claimed ToolResult with error value "tool not recognized"; it
produces the error value "Tool \x27foo\x27 execution not implemented."
(and contacts no collaborator). -/
theorem C7_counterexample :
    (dispatchTool env0 (Json.str "foo") []).result ≠
      Json.obj [("error", Json.str "tool not recognized")] ∧
    (dispatchTool env0 (Json.str "foo") []).result =
      Json.obj [("error", Json.str "Tool \x27foo\x27 execution not implemented.")] ∧
    (dispatchTool env0 (Json.str "foo") []).contacted = false :=
  ⟨fun h => absurd (congrArg Json.dumps h) (by decide), rfl, rfl⟩

/-- C7 (amended): for every tool call whose name is a string other than the
four supported capabilities, the dispatcher returns the ToolResult whose error
value is "Tool \x27name\x27 execution not implemented.", leaves the arguments
untouched, and contacts no collaborator. -/
theorem C7_unrecognized_tool (env : LoopEnv) (s : String) (args : List (String × Json))
    (h : s ∉ knownToolNames) :
    dispatchTool env (Json.str s) args =
      ⟨args,
       Json.obj [("error", Json.str ("Tool \x27" ++ s ++ "\x27 execution not implemented."))],
       false⟩ := by
  simp [knownToolNames] at h
  obtain ⟨h1, h2, h3, h4⟩ := h
  simp [dispatchTool, jsonIsStr, pyStr, h1, h2, h3, h4]

/-- C7 witness: the amended theorem evaluated at the unrecognized name
"foo". -/
theorem C7_witness :
    dispatchTool env0 (Json.str "foo") [] =
      ⟨[],
       Json.obj [("error", Json.str "Tool \x27foo\x27 execution not implemented.")],
       false⟩ :=
  C7_unrecognized_tool env0 "foo" [] (by decide)

/-- C8 counterexample: a raw payload that is valid JSON but not an object
(the list [1, 2]) aborts the incident before any turn: `.get` raises an
AttributeError that only the outer handler catches, so the outcome is the
unhandled-error ERROR, refuting "processing is never aborted by the
payload's shape". -/
theorem C8_counterexample :
    (HandleIncident true true incidentArr proseScript payOracle0 kbOracle0).status = "ERROR" ∧
    (HandleIncident true true incidentArr proseScript payOracle0 kbOracle0).summary =
      "Unhandled error in HandleIncident: \x27list\x27 object has no attribute \x27get\x27" ∧
    (HandleIncident true true incidentArr proseScript payOracle0 kbOracle0).turnsEntered = 0 :=
  ⟨rfl, rfl, rfl⟩

/-- C8 (amended): for every raw payload that fails to parse as JSON, both
derived fields degrade to absent and the incident still enters the turn loop
(at least one turn runs), whatever the collaborators do. Payloads parsing to
non-object JSON values are excluded: they abort with an unhandled-error ERROR
outcome. -/
theorem C8_parse_failure_degrades (esUp : Bool) (et etxt : String) (llm : Nat → ModelStep)
    (pay : String → List (String × Json) → Json) (kb : Json → Json) :
    extractIds none = Except.ok ((none : Option Json), (none : Option Json)) ∧
    1 ≤ (HandleIncident true esUp ⟨et, etxt, none⟩ llm pay kb).turnsEntered := by
  refine ⟨rfl, ?_⟩
  show 1 ≤ (runLoop ⟨esUp, et, etxt, none, none, llm, pay, kb⟩ 5 1 none [] 0 0 0).turnsEntered
  simpa using runLoop_turns_succ_ge ⟨esUp, et, etxt, none, none, llm, pay, kb⟩ 4 1 none [] 0 0 0

/-- C9: backfill is non-destructive and idempotent. When the model-supplied
args already contain the required identifier (user_id for get_payment_methods,
order_id for retry_payment and escalate_to_human), dispatch passes them
through unchanged, so the event-derived value never overwrites the
model-supplied one; and backfilling a key twice equals backfilling it once. -/
theorem C9_backfill_non_destructive (env : LoopEnv) (args : List (String × Json)) :
    (hasKey args "user_id" = true →
      (dispatchTool env (Json.str "get_payment_methods") args).args = args) ∧
    (hasKey args "order_id" = true →
      (dispatchTool env (Json.str "retry_payment") args).args = args) ∧
    (hasKey args "order_id" = true →
      (dispatchTool env (Json.str "escalate_to_human") args).args = args) ∧
    (∀ key v, backfillArg (backfillArg args key v) key v = backfillArg args key v) := by
  refine ⟨?_, ?_, ?_, fun key v => backfillArg_idem args key v⟩
  · intro h
    have hb := backfillArg_present args "user_id" env.userId h
    simp [dispatchTool, jsonIsStr, hb]
  · intro h
    have hb := backfillArg_present args "order_id" env.orderId h
    simp [dispatchTool, jsonIsStr, hb]
  · intro h
    have hb := backfillArg_present args "order_id" env.orderId h
    simp [dispatchTool, jsonIsStr, hb]

/-- C9 witness: the theorem applied to args already carrying both
identifiers. -/
theorem C9_witness :
    (dispatchTool env0 (Json.str "get_payment_methods") argsBoth).args = argsBoth ∧
    (dispatchTool env0 (Json.str "retry_payment") argsBoth).args = argsBoth ∧
    (dispatchTool env0 (Json.str "escalate_to_human") argsBoth).args = argsBoth :=
  ⟨(C9_backfill_non_destructive env0 argsBoth).1 (by decide),
   (C9_backfill_non_destructive env0 argsBoth).2.1 (by decide),
   (C9_backfill_non_destructive env0 argsBoth).2.2.1 (by decide)⟩

/-- C10: the mock retry endpoint succeeds exactly on payment_method_id
"card_B_paypal", with transaction_id "txn_" ++ order_id ++ "_paypal"; every
other method id fails with reason "Insufficient funds (mocked)". The
embedding is a pure function of the request: the endpoint body never touches
the database, so the outcome is deterministic. -/
theorem C10_retry_payment_mock (oid : Int) (pmid : String) :
    ((retry_payment ⟨oid, pmid⟩).status = "success" ↔ pmid = "card_B_paypal") ∧
    retry_payment ⟨oid, pmid⟩ =
      (if pmid = "card_B_paypal" then
        ⟨"success", some ("txn_" ++ toString oid ++ "_paypal"), none⟩
       else ⟨"failed", none, some "Insufficient funds (mocked)"⟩) := by
  by_cases h : pmid = "card_B_paypal" <;> simp [retry_payment, h]

end Aegis
